import Mathlib

/-!
# Verification of the `zeustools` output-comparison engine

Shallow embedding of `src/output.py` (the comparison engine for
ZEUS-MP simulation outputs) and proofs about the claims of the
specification.

Modelling conventions:
* a numpy array is an `Arr`: a 3-dimensional shape `(nk, nj, ni)`
  together with a flat data list in C (row-major) order; numeric
  values are rationals (`ℚ`), so the embedding is exact and
  executable;
* a dataset (the fields `compare_two` reads through `get_dset`) is a
  `Dataset`: the scalar time stamp `t` plus the coordinate, velocity
  and physical-state arrays;
* Python exceptions are explicit: `assert_near_equality` returns
  `Except DifferenceError Unit`, and `compare_two` returns a
  `CompareTwoResult` recording the printed lines, any exception that
  escapes the function uncaught (`PyError`), which comparators were
  invoked (for the "no field comparison happens" claims), and the
  open/closed state of the two file handles at exit;
* printing is modelled by accumulating `Line` values.
-/

/-- A numpy array: 3-d shape `(nk, nj, ni)` plus flat data in C order.
(Arrays of lower rank are represented with singleton leading axes.) -/
structure Arr where
  nk : ℕ
  nj : ℕ
  ni : ℕ
  data : List ℚ
deriving DecidableEq, Repr

/-- Total element count of an array, the numpy size attribute (used by
the axis-size check at `output.py` line 121). -/
def Arr.size (A : Arr) : ℕ := A.data.length

/-- Element access `A[k, j, i]` (C order, last axis fastest). -/
def Arr.get (A : Arr) (k j i : ℕ) : ℚ :=
  A.data.getD (i + A.ni * (j + A.nj * k)) 0

/-- Well-formedness: the flat data has exactly `nk * nj * ni` entries. -/
def Arr.wf (A : Arr) : Prop := A.data.length = A.nk * A.nj * A.ni

/-- Two arrays have the same shape. -/
def sameShape (A B : Arr) : Prop :=
  A.nk = B.nk ∧ A.nj = B.nj ∧ A.ni = B.ni

/-- All index triples `(k, j, i)` of an array, in C (row-major) scan
order — the enumeration order of numpy nonzero. -/
def Arr.indices (A : Arr) : List (ℕ × ℕ × ℕ) :=
  (List.range A.nk).flatMap fun k =>
    (List.range A.nj).flatMap fun j =>
      (List.range A.ni).map fun i => (k, j, i)

/-- Nonzero support of an array: the index triples where the entry is
nonzero, in C-scan order — the numpy call `aerr.nonzero()` of
`output.py` lines 86 and 96, as consumed by `zip(*self.locs)` in
`showall`. -/
def Arr.nonzero (A : Arr) : List (ℕ × ℕ × ℕ) :=
  A.indices.filter fun p => decide (A.get p.1 p.2.1 p.2.2 ≠ 0)

/-- Model of `np.array_equal a b`: same shape and identical elements
(`output.py` line 93). -/
def arrayEqual (A B : Arr) : Bool :=
  A.nk == B.nk && A.nj == B.nj && A.ni == B.ni && A.data == B.data

/-- Elementwise absolute error `np.abs(a-b)` (`output.py` lines 85, 95). -/
def absErr (A B : Arr) : Arr :=
  ⟨A.nk, A.nj, A.ni, List.zipWith (fun x y => |x - y|) A.data B.data⟩

/-- Elementwise relative error `np.abs(a-b) / np.abs(a+b)`
(`output.py` lines 84, 94).  Where `a + b = 0` numpy produces
NaN/inf; in `ℚ` division by zero yields `0` — the spec flags this
corner as an open question and no claim depends on it. -/
def relErr (A B : Arr) : Arr :=
  ⟨A.nk, A.nj, A.ni, List.zipWith (fun x y => |x - y| / |x + y|) A.data B.data⟩

/-- One direction of the numpy closeness test:
`|x - y| <= atol + rtol * |y|`. -/
def isClose (rtol atol x y : ℚ) : Bool :=
  decide (|x - y| ≤ atol + rtol * |y|)

/-- Model of `np.allclose(a, b, rtol, atol)`: every element of `a` is
close to the corresponding element of `b` (`output.py` lines 80-81). -/
def allclose (rtol atol : ℚ) (A B : Arr) : Bool :=
  (List.zipWith (isClose rtol atol) A.data B.data).all id

/-- The `DifferenceError` exception of `output.py` lines 62-69:
field name (set after the raise by the caller), relative and absolute
error arrays, mismatch locations, and the tolerance used. -/
structure DifferenceError where
  var : Option String
  rerr : Arr
  aerr : Arr
  locs : List (ℕ × ℕ × ℕ)
  rtol : ℚ
deriving DecidableEq, Repr

/-- A line of printed output of the comparison engine. -/
inductive Line where
  /-- Header line, Comparing file1 with file2 (line 104). -/
  | comparing (file1 file2 : String) : Line
  /-- Report line, Cannot compare files, naming the variable and both
  values (lines 169-170); used for time stamps and axis sizes. -/
  | cannotCompareValues (var : String) (v1 v2 : ℚ) : Line
  /-- Report line, Cannot compare files, naming the variable only
  (lines 174-175), intended for coordinate-value mismatches. -/
  | cannotCompareAxis (var : String) : Line
  /-- Summary line, Files do not match, naming the variable and the
  maximum relative error (lines 147-148 and 163-164). -/
  | doesNotMatch (var : String) (maxRelErr : ℚ) : Line
  /-- Per-location line of `showall`: the index triple and the pair of
  relative and absolute error (lines 72-76). -/
  | mismatchAt (i j k : ℕ) (rerr aerr : ℚ) : Line
deriving DecidableEq, Repr

/-- Model of `DifferenceError.showall` (`output.py` lines 71-76): for each
mismatch location `(k, j, i)` not excluded by a skip set, print the
location and its `(relative, absolute)` error pair when the relative
error strictly exceeds the stored tolerance. -/
def DifferenceError.showall (e : DifferenceError)
    (iskip jskip kskip : List ℕ) : List Line :=
  e.locs.filterMap fun p =>
    if p.2.2 ∈ iskip ∨ p.2.1 ∈ jskip ∨ p.1 ∈ kskip then none
    else if e.rtol < e.rerr.get p.1 p.2.1 p.2.2 then
      some (.mismatchAt p.2.2 p.2.1 p.1
        (e.rerr.get p.1 p.2.1 p.2.2) (e.aerr.get p.1 p.2.1 p.2.2))
    else none

/-- A Python exception that is not a `DifferenceError` /
`ComparisonError` of the module (and hence is never caught by
`compare_two`). -/
inductive PyError where
  /-- Python NameError on an undefined name. -/
  | nameError (name : String) : PyError
  /-- Python AttributeError on a missing attribute. -/
  | attributeError (attr : String) : PyError
  /-- failure of `ZeusFile(filename)` to open a file. -/
  | openError : PyError
deriving DecidableEq, Repr

/-- Model of `assert_near_equality` (`output.py` lines 78-89): symmetric
`allclose` in both directions; on failure raise a `DifferenceError`
carrying the relative error, absolute error, the nonzero support of
the absolute error, and `rtol`. -/
def assert_near_equality (a b : Arr) (rtol atol : ℚ) :
    Except DifferenceError Unit :=
  if allclose rtol atol a b = true ∧ allclose rtol atol b a = true then
    .ok ()
  else
    .error ⟨none, relErr a b, absErr a b, (absErr a b).nonzero, rtol⟩

/-- Model of `assert_equality` (`output.py` lines 91-99): exact array
equality.  On inequality the source computes `rerr`, `aerr` and `locs`
and then evaluates `raise DifferenceError(None, rerr, aerr, locs, rtol)`
— but `rtol` is not defined in that scope (line 97), so the function
actually raises a Python NameError for the undefined name rtol instead
of a `DifferenceError`. -/
def assert_equality (a b : Arr) : Except PyError Unit :=
  if arrayEqual a b = true then .ok ()
  else .error (.nameError "rtol")

/-- The fields of one output file that `compare_two` reads through
`get_dset`: the scalar time stamp `t` (element `[0]` of the time
dataset) and the coordinate, velocity and physical-state arrays. -/
structure Dataset where
  t : ℚ
  x1 : Arr
  x2 : Arr
  x3 : Arr
  v1 : Arr
  v2 : Arr
  v3 : Arr
  e : Arr
  d : Arr
  gp : Arr
deriving DecidableEq, Repr

/-- Field access `get_dset` by name, restricted to the names `compare_two`
uses (an unknown name yields an empty array; never exercised). -/
def Dataset.get (D : Dataset) : String → Arr
  | "x1" => D.x1
  | "x2" => D.x2
  | "x3" => D.x3
  | "v1" => D.v1
  | "v2" => D.v2
  | "v3" => D.v3
  | "e" => D.e
  | "d" => D.d
  | "gp" => D.gp
  | _ => ⟨0, 0, 0, []⟩

/-- Result of one of the two field-comparison loops of `compare_two`
(lines 135-149 and 151-165): the lines printed, the fields for which
the tolerant comparator was invoked (in order), and the
`DifferenceError` escaping the loop, if any (only possible when
`unforgiving` is set). -/
structure LoopResult where
  lines : List Line
  calls : List String
  err : Option DifferenceError
deriving DecidableEq, Repr

/-- The field-comparison loop body of `compare_two` (lines 135-149,
repeated verbatim at 151-165): for each field run
`assert_near_equality` with `(rtol, atol = 0)`; on divergence set the
field name on the error, then either re-raise (`unforgiving`) or
print the one-line summary with `DE.rerr.max()` and, when `verbose`,
`DE.showall()`, and continue with the next field. -/
def fieldLoop (rtol : ℚ) (unforgiving verbose : Bool)
    (d1 d2 : Dataset) : List String → LoopResult
  | [] => ⟨[], [], none⟩
  | f :: rest =>
    match assert_near_equality (d1.get f) (d2.get f) rtol 0 with
    | .ok _ =>
      let r := fieldLoop rtol unforgiving verbose d1 d2 rest
      ⟨r.lines, f :: r.calls, r.err⟩
    | .error E0 =>
      let E : DifferenceError := { E0 with var := some f }
      if unforgiving then ⟨[], [f], some E⟩
      else
        let r := fieldLoop rtol unforgiving verbose d1 d2 rest
        ⟨Line.doesNotMatch f ((E.rerr.data.max?).getD 0)
            :: (if verbose then E.showall [] [] [] else []) ++ r.lines,
          f :: r.calls, r.err⟩

/-- How the `try` body of `compare_two` (lines 109-165) terminates. -/
inductive BodyExit where
  /-- all checks passed. -/
  | ok : BodyExit
  /-- Exit via `ComparisonError(var, v1, v2)` (time stamp, line 115, or
  axis size, line 122). -/
  | comparisonError (var : String) (v1 v2 : ℚ) : BodyExit
  /-- Exit via the NameError raised inside `assert_equality` (line 97): not a
  `DifferenceError`, so the nested handler at line 130 does not catch
  it. -/
  | nameError : BodyExit
  /-- a `DifferenceError` re-raised by an `unforgiving` field loop. -/
  | differenceError (E : DifferenceError) : BodyExit
deriving DecidableEq, Repr

/-- Result of the `try` body of `compare_two`: printed lines, exact
comparator invocations (coordinate axes, in order), tolerant
comparator invocations (fields, in order), and the exit. -/
structure BodyResult where
  lines : List Line
  exactCalls : List String
  tolerantCalls : List String
  exit : BodyExit
deriving DecidableEq, Repr

/-- The `try` body of `compare_two` (`output.py` lines 109-165), in
source order: time-stamp check (skipped under `force`), the axis-size
loop over `x1, x2, x3`, the coordinate-equality loop over the same
axes, then the velocity loop and the physical-variable loop. -/
def compareBody (rtol : ℚ) (unforgiving verbose force : Bool)
    (d1 d2 : Dataset) : BodyResult :=
  if d1.t ≠ d2.t ∧ force = false then
    ⟨[], [], [], .comparisonError "t" d1.t d2.t⟩
  else if d1.x1.size ≠ d2.x1.size then
    ⟨[], [], [], .comparisonError "x1" d1.x1.size d2.x1.size⟩
  else if d1.x2.size ≠ d2.x2.size then
    ⟨[], [], [], .comparisonError "x2" d1.x2.size d2.x2.size⟩
  else if d1.x3.size ≠ d2.x3.size then
    ⟨[], [], [], .comparisonError "x3" d1.x3.size d2.x3.size⟩
  else match assert_equality d1.x1 d2.x1 with
  | .error _ => ⟨[], ["x1"], [], .nameError⟩
  | .ok _ => match assert_equality d1.x2 d2.x2 with
    | .error _ => ⟨[], ["x1", "x2"], [], .nameError⟩
    | .ok _ => match assert_equality d1.x3 d2.x3 with
      | .error _ => ⟨[], ["x1", "x2", "x3"], [], .nameError⟩
      | .ok _ =>
        let r1 := fieldLoop rtol unforgiving verbose d1 d2 ["v1", "v2", "v3"]
        match r1.err with
        | some E =>
          ⟨r1.lines, ["x1", "x2", "x3"], r1.calls, .differenceError E⟩
        | none =>
          let r2 := fieldLoop rtol unforgiving verbose d1 d2 ["e", "d", "gp"]
          match r2.err with
          | some E =>
            ⟨r1.lines ++ r2.lines, ["x1", "x2", "x3"],
              r1.calls ++ r2.calls, .differenceError E⟩
          | none =>
            ⟨r1.lines ++ r2.lines, ["x1", "x2", "x3"],
              r1.calls ++ r2.calls, .ok⟩

/-- Observable result of one `compare_two` call: lines printed, any
exception escaping the call uncaught, the comparator invocations, and
whether each of the two file handles was opened and closed. -/
structure CompareTwoResult where
  lines : List Line
  uncaught : Option PyError
  exactCalls : List String
  tolerantCalls : List String
  f1Opened : Bool
  f2Opened : Bool
  f1Closed : Bool
  f2Closed : Bool
deriving DecidableEq, Repr

/-- The exception handlers and `finally` of `compare_two`
(`output.py` lines 168-183), applied to the outcome of the `try`
body.  A `ComparisonError` becomes the two-value report line
(lines 169-170).  A `DifferenceError` whose field is a coordinate
axis would be reported by name only (lines 173-175; dead code, since
coordinate mismatches raise `NameError` instead); any other
`DifferenceError` evaluates `DE.diff.max()` (line 178) — an
attribute `DifferenceError` does not have — so an `AttributeError`
escapes before the report line is printed.  The `finally`
(lines 181-183) closes both handles in every case. -/
def handleExit (hdr : Line) (B : BodyResult) : CompareTwoResult :=
  match B.exit with
  | .ok =>
    ⟨hdr :: B.lines, none, B.exactCalls, B.tolerantCalls,
      true, true, true, true⟩
  | .comparisonError v a b =>
    ⟨hdr :: B.lines ++ [.cannotCompareValues v a b], none,
      B.exactCalls, B.tolerantCalls, true, true, true, true⟩
  | .nameError =>
    ⟨hdr :: B.lines, some (.nameError "rtol"),
      B.exactCalls, B.tolerantCalls, true, true, true, true⟩
  | .differenceError E =>
    match E.var with
    | some v =>
      if v = "x1" ∨ v = "x2" ∨ v = "x3" then
        ⟨hdr :: B.lines ++ [.cannotCompareAxis v], none,
          B.exactCalls, B.tolerantCalls, true, true, true, true⟩
      else
        ⟨hdr :: B.lines, some (.attributeError "diff"),
          B.exactCalls, B.tolerantCalls, true, true, true, true⟩
    | none =>
      ⟨hdr :: B.lines, some (.attributeError "diff"),
        B.exactCalls, B.tolerantCalls, true, true, true, true⟩

/-- Model of `compare_two` (`output.py` lines 101-185).  The two `ZeusFile`
opens (lines 106-107) sit before the `try`, so a failure opening the
second file escapes with the first handle still open; once both opens
succeed, the `try` body runs and its outcome goes through the
handlers and the `finally` (`handleExit`).  `open1`/`open2` model the
outcome of the two opens (`none` = the open raised). -/
def compare_two (rtol : ℚ) (unforgiving verbose force : Bool)
    (file1 file2 : String) (open1 open2 : Option Dataset) :
    CompareTwoResult :=
  let hdr := Line.comparing file1 file2
  match open1 with
  | none => ⟨[hdr], some .openError, [], [], false, false, false, false⟩
  | some d1 =>
    match open2 with
    | none => ⟨[hdr], some .openError, [], [], true, false, false, false⟩
    | some d2 =>
      handleExit hdr (compareBody rtol unforgiving verbose force d1 d2)

/-- Default of the `rtol` parameter of `compare_two`
(`output.py` line 101: `rtol = 1e8`). -/
def compare_two_default_rtol : ℚ := 100000000

/-- Default of the `rtol` parameter of `compare_output`
(`output.py` line 187: `rtol = 1e-8`). -/
def compare_output_default_rtol : ℚ := 1 / 100000000

/-- Model of `compare_output` (`output.py` lines 187-193): compare the
position-zipped file pairs sequentially. -/
def compare_output (rtol : ℚ) (unforgiving verbose force : Bool)
    (pairs : List (String × String × Option Dataset × Option Dataset)) :
    List CompareTwoResult :=
  pairs.map fun q =>
    compare_two rtol unforgiving verbose force q.1 q.2.1 q.2.2.1 q.2.2.2

/-! ## Sample data used by witnesses and counterexamples -/

/-- A 1-element array holding `0`. -/
def arrZero : Arr := ⟨1, 1, 1, [0]⟩

/-- A 1-element array holding `4`. -/
def arrFour : Arr := ⟨1, 1, 1, [4]⟩

/-- A dataset whose every field is the 1-element zero array,
with time stamp `0`. -/
def dsBase : Dataset :=
  ⟨0, arrZero, arrZero, arrZero, arrZero, arrZero, arrZero,
    arrZero, arrZero, arrZero⟩

/-- Variant of `dsBase` with a different time stamp. -/
def dsLaterT : Dataset := { dsBase with t := 1 }

/-- Variant of `dsBase` with a different time stamp and an `x2` axis of a
different length. -/
def dsLaterTWideX2 : Dataset := { dsBase with t := 1, x2 := ⟨1, 1, 2, [0, 0]⟩ }

/-- Variant of `dsBase` with a different `x1` coordinate array (same size). -/
def dsOtherX1 : Dataset := { dsBase with x1 := arrFour }

/-- Variant of `dsBase` with a diverging first velocity component. -/
def dsOtherV1 : Dataset := { dsBase with v1 := arrFour }

/-! ## Helper lemmas -/

/-- Boolean `arrayEqual` coincides with propositional equality of arrays. -/
lemma arrayEqual_iff {A B : Arr} : arrayEqual A B = true ↔ A = B := by
  rcases A with ⟨ak, aj, ai, ad⟩
  rcases B with ⟨bk, bj, bi, bd⟩
  simp [arrayEqual]
  tauto

/-- Success of `assert_equality` happens exactly on equal arrays. -/
lemma assert_equality_ok_iff {A B : Arr} :
    assert_equality A B = .ok () ↔ A = B := by
  unfold assert_equality
  by_cases h : arrayEqual A B = true
  · rw [if_pos h]
    have hAB := arrayEqual_iff.mp h
    simp [hAB]
  · rw [if_neg h]
    constructor
    · intro hc
      exact absurd hc (by simp)
    · intro hAB
      exact absurd (arrayEqual_iff.mpr hAB) h

/-- With nonnegative tolerances, every element of a list is close to
itself. -/
lemma allclose_self_aux {rtol atol : ℚ} (hr : 0 ≤ rtol) (ha : 0 ≤ atol)
    (l : List ℚ) : (List.zipWith (isClose rtol atol) l l).all id = true := by
  induction l with
  | nil => rfl
  | cons y l ih =>
    rw [List.zipWith_cons_cons, List.all_cons, ih, Bool.and_true]
    simp only [id, isClose, decide_eq_true_eq, sub_self, abs_zero]
    positivity

/-- With nonnegative tolerances, every array is `allclose` to itself. -/
lemma allclose_self {rtol atol : ℚ} (hr : 0 ≤ rtol) (ha : 0 ≤ atol)
    (A : Arr) : allclose rtol atol A A = true :=
  allclose_self_aux hr ha A.data

/-- Success of `assert_near_equality` on equal arrays under
nonnegative tolerances. -/
lemma assert_near_equality_ok_of_eq {A B : Arr} {rtol atol : ℚ}
    (hr : 0 ≤ rtol) (ha : 0 ≤ atol) (hAB : A = B) :
    assert_near_equality A B rtol atol = .ok () := by
  subst hAB
  unfold assert_near_equality
  rw [if_pos ⟨allclose_self hr ha A, allclose_self hr ha A⟩]

/-- The exact content of the `DifferenceError` raised by
`assert_near_equality`. -/
lemma assert_near_equality_error_eq {A B : Arr} {rtol atol : ℚ}
    {E : DifferenceError}
    (h : assert_near_equality A B rtol atol = .error E) :
    E = ⟨none, relErr A B, absErr A B, (absErr A B).nonzero, rtol⟩ := by
  unfold assert_near_equality at h
  by_cases hc : allclose rtol atol A B = true ∧ allclose rtol atol B A = true
  · rw [if_pos hc] at h
    exact absurd h (by simp)
  · rw [if_neg hc] at h
    exact (Except.error.inj h).symm

/-- Membership in `Arr.indices` gives the per-axis bounds. -/
lemma mem_indices_bounds {A : Arr} {p : ℕ × ℕ × ℕ} (hp : p ∈ A.indices) :
    p.1 < A.nk ∧ p.2.1 < A.nj ∧ p.2.2 < A.ni := by
  unfold Arr.indices at hp
  rw [List.mem_flatMap] at hp
  obtain ⟨k, hk, hp⟩ := hp
  rw [List.mem_flatMap] at hp
  obtain ⟨j, hj, hp⟩ := hp
  rw [List.mem_map] at hp
  obtain ⟨i, hi, hp⟩ := hp
  subst hp
  exact ⟨List.mem_range.mp hk, List.mem_range.mp hj, List.mem_range.mp hi⟩

/-- The C-order flat index of an in-range triple is in range. -/
lemma flat_index_lt {nk nj ni k j i : ℕ}
    (hk : k < nk) (hj : j < nj) (hi : i < ni) :
    i + ni * (j + nj * k) < nk * nj * ni := by
  have h1 : j + nj * k + 1 ≤ nj * nk := by
    calc j + nj * k + 1 ≤ nj + nj * k := by omega
    _ = nj * (k + 1) := by ring
    _ ≤ nj * nk := Nat.mul_le_mul_left nj hk
  calc i + ni * (j + nj * k) + 1 ≤ ni + ni * (j + nj * k) := by omega
  _ = ni * (j + nj * k + 1) := by ring
  _ ≤ ni * (nj * nk) := Nat.mul_le_mul_left ni h1
  _ = nk * nj * ni := by ring

/-- On well-formed same-shaped arrays, `absErr` acts pointwise on
in-range entries. -/
lemma absErr_get {A B : Arr} (hA : A.wf) (hB : B.wf)
    (hs : sameShape A B) {k j i : ℕ}
    (hk : k < A.nk) (hj : j < A.nj) (hi : i < A.ni) :
    (absErr A B).get k j i = |A.get k j i - B.get k j i| := by
  obtain ⟨h1, h2, h3⟩ := hs
  have hlt : i + A.ni * (j + A.nj * k) < A.nk * A.nj * A.ni :=
    flat_index_lt hk hj hi
  have hlA : i + A.ni * (j + A.nj * k) < A.data.length := by rw [hA]; exact hlt
  have hlB : i + A.ni * (j + A.nj * k) < B.data.length := by
    rw [hB, ← h1, ← h2, ← h3]; exact hlt
  have hlz : i + A.ni * (j + A.nj * k) <
      (List.zipWith (fun x y => |x - y|) A.data B.data).length := by
    rw [List.length_zipWith]
    exact lt_min hlA hlB
  have hidx : i + B.ni * (j + B.nj * k) = i + A.ni * (j + A.nj * k) := by
    rw [h2, h3]
  show (List.zipWith (fun x y => |x - y|) A.data B.data).getD
      (i + A.ni * (j + A.nj * k)) 0 =
    |A.data.getD (i + A.ni * (j + A.nj * k)) 0 -
      B.data.getD (i + B.ni * (j + B.nj * k)) 0|
  rw [hidx, List.getD_eq_getElem _ _ hlz, List.getD_eq_getElem _ _ hlA,
    List.getD_eq_getElem _ _ hlB, List.getElem_zipWith]

/-- The number of positions at which two arrays hold different
values: the count of element positions where the two arrays differ,
in the words of the spec. -/
def diffCount (A B : Arr) : ℕ :=
  A.indices.countP fun p => decide (A.get p.1 p.2.1 p.2.2 ≠ B.get p.1 p.2.1 p.2.2)

/-- The nonzero support of the absolute-error array has exactly
`diffCount` elements. -/
lemma length_nonzero_absErr {A B : Arr} (hA : A.wf) (hB : B.wf)
    (hs : sameShape A B) :
    (absErr A B).nonzero.length = diffCount A B := by
  unfold Arr.nonzero diffCount
  have hidx : (absErr A B).indices = A.indices := rfl
  rw [hidx, ← List.countP_eq_length_filter]
  apply List.countP_congr
  intro p hp
  obtain ⟨hk, hj, hi⟩ := mem_indices_bounds hp
  have := absErr_get hA hB hs hk hj hi
  simp only [decide_eq_true_eq, this, ne_eq, abs_eq_zero, sub_eq_zero]

/-- Every entry of `zipWith |a - b|` of a list with itself is zero. -/
lemma mem_zipWith_self_abs {l : List ℚ} :
    ∀ x ∈ List.zipWith (fun a b => |a - b|) l l, x = 0 := by
  induction l with
  | nil => intro x hx; simp at hx
  | cons y t ih =>
    intro x hx
    rw [List.zipWith_cons_cons] at hx
    rcases List.mem_cons.mp hx with hx | hx
    · rw [hx]; simp
    · exact ih x hx

/-- For elementwise-equal data, the absolute-error array vanishes
everywhere, so its nonzero support is empty. -/
lemma nonzero_absErr_self {A B : Arr} (h : A.data = B.data) :
    (absErr A B).nonzero = [] := by
  have hall : ∀ x ∈ (absErr A B).data, x = 0 := by
    show ∀ x ∈ List.zipWith (fun a b => |a - b|) A.data B.data, x = 0
    rw [← h]
    exact mem_zipWith_self_abs
  have hzero : ∀ n, (absErr A B).data.getD n 0 = 0 := by
    intro n
    rcases Nat.lt_or_ge n (absErr A B).data.length with hn | hn
    · rw [List.getD_eq_getElem _ _ hn]
      exact hall _ (List.getElem_mem hn)
    · exact List.getD_eq_default _ _ hn
  unfold Arr.nonzero
  rw [List.filter_eq_nil_iff]
  intro p hp
  simp only [decide_eq_true_eq, not_not]
  exact hzero _

/-- Unfolding lemma: `compare_two` on two successfully opened files is
the handled body. -/
lemma compare_two_eq_handleExit (rtol : ℚ) (unforgiving verbose force : Bool)
    (file1 file2 : String) (d1 d2 : Dataset) :
    compare_two rtol unforgiving verbose force file1 file2 (some d1) (some d2) =
      handleExit (.comparing file1 file2)
        (compareBody rtol unforgiving verbose force d1 d2) := rfl

/-- Whatever the exit of the body, the handlers leave both handles
closed. -/
lemma handleExit_closes (hdr : Line) (B : BodyResult) :
    (handleExit hdr B).f1Closed = true ∧ (handleExit hdr B).f2Closed = true := by
  rcases B with ⟨l, ec, tc, ex⟩
  cases ex with
  | ok => exact ⟨rfl, rfl⟩
  | comparisonError v a b => exact ⟨rfl, rfl⟩
  | nameError => exact ⟨rfl, rfl⟩
  | differenceError E =>
    rcases E with ⟨var, rr, ae, lo, rt⟩
    cases var with
    | none => exact ⟨rfl, rfl⟩
    | some v =>
      by_cases h : v = "x1" ∨ v = "x2" ∨ v = "x3"
      · simp [handleExit, h]
      · simp [handleExit, h]

/-! ## Claim theorems -/

/-- Claim C7. For every array `a`, comparing `a` against itself yields a
match (no divergence raised) under both the exact comparison
(`assert_equality`) and the tolerant comparison
(`assert_near_equality`), for any `rtol ≥ 0` and `atol ≥ 0`. -/
theorem self_comparison_always_matches (a : Arr) (rtol atol : ℚ)
    (hr : 0 ≤ rtol) (ha : 0 ≤ atol) :
    assert_equality a a = .ok () ∧
      assert_near_equality a a rtol atol = .ok () :=
  ⟨assert_equality_ok_iff.mpr rfl, assert_near_equality_ok_of_eq hr ha rfl⟩

/-- Witness for claim C7 at `a = arrFour`, `rtol = 1/2`, `atol = 0`. -/
theorem self_comparison_always_matches_witness :
    (0 : ℚ) ≤ 1 / 2 ∧ (0 : ℚ) ≤ 0 ∧
      (assert_equality arrFour arrFour = .ok () ∧
        assert_near_equality arrFour arrFour (1 / 2) 0 = .ok ()) :=
  ⟨by norm_num, le_refl 0,
    self_comparison_always_matches arrFour (1 / 2) 0 (by norm_num) (le_refl 0)⟩

/-- Claim C8. For all arrays `a`, `b` and all `rtol ≥ 0`, `atol ≥ 0`: if
the exact comparison of `a` and `b` matches, then the tolerant
comparison with tolerances `(rtol, atol)` also matches — exact mode is
a stricter special case of tolerant mode. -/
theorem exact_match_implies_tolerant_match (a b : Arr) (rtol atol : ℚ)
    (hr : 0 ≤ rtol) (ha : 0 ≤ atol) (h : assert_equality a b = .ok ()) :
    assert_near_equality a b rtol atol = .ok () :=
  assert_near_equality_ok_of_eq hr ha (assert_equality_ok_iff.mp h)

/-- Witness for claim C8 at `a = b = arrZero`, `rtol = 1`, `atol = 2`. -/
theorem exact_match_implies_tolerant_match_witness :
    (0 : ℚ) ≤ 1 ∧ (0 : ℚ) ≤ 2 ∧ assert_equality arrZero arrZero = .ok () ∧
      assert_near_equality arrZero arrZero 1 2 = .ok () :=
  ⟨by norm_num, by norm_num, assert_equality_ok_iff.mpr rfl,
    exact_match_implies_tolerant_match arrZero arrZero 1 2 (by norm_num)
      (by norm_num) (assert_equality_ok_iff.mpr rfl)⟩

/-- Claim C9. The default value of the tolerance parameter `rtol` differs
between the two top-level comparison entry points: it is `1e8` in
`compare_two` (`output.py` line 101) and `1e-8` in `compare_output`
(line 187). -/
theorem default_rtol_discrepancy :
    compare_two_default_rtol = 10 ^ 8 ∧
      compare_output_default_rtol = ((10 : ℚ) ^ 8)⁻¹ ∧
      compare_two_default_rtol ≠ compare_output_default_rtol := by
  refine ⟨by norm_num [compare_two_default_rtol], ?_, ?_⟩
  · rw [compare_output_default_rtol]
    norm_num
  · rw [compare_two_default_rtol, compare_output_default_rtol]
    norm_num

/-- Claim C6. Every divergence result produced by the tolerant
comparison carries exactly the nonzero support of the absolute-error
array `|a - b|` as its mismatch-location set; the size of that set
equals the number of element positions where `a ≠ b`, and for
elementwise-equal arrays the set is empty.  (The exact comparison
`assert_equality` produces no divergence result at all: its `raise`
fails with `NameError`, see `assert_equality`; the nonzero-support
expression it computes is the same `(absErr a b).nonzero`.) -/
theorem divergence_locs_are_nonzero_support (a b : Arr) (rtol atol : ℚ)
    (E : DifferenceError) (ha : a.wf) (hb : b.wf) (hs : sameShape a b)
    (hE : assert_near_equality a b rtol atol = .error E) :
    E.aerr = absErr a b ∧ E.locs = E.aerr.nonzero ∧
      E.locs.length = diffCount a b ∧
      (a.data = b.data → E.locs = []) := by
  have hEeq := assert_near_equality_error_eq hE
  subst hEeq
  exact ⟨rfl, rfl, length_nonzero_absErr ha hb hs,
    fun h => nonzero_absErr_self h⟩

/-- Witness for claim C6 at `a = arrZero`, `b = arrFour`,
`rtol = 1/2`, `atol = 0`. -/
theorem divergence_locs_are_nonzero_support_witness :
    (arrZero.wf ∧ arrFour.wf ∧ sameShape arrZero arrFour ∧
      assert_near_equality arrZero arrFour (1 / 2) 0 =
        .error ⟨none, relErr arrZero arrFour, absErr arrZero arrFour,
          (absErr arrZero arrFour).nonzero, 1 / 2⟩) ∧
    ((⟨none, relErr arrZero arrFour, absErr arrZero arrFour,
        (absErr arrZero arrFour).nonzero, 1 / 2⟩ : DifferenceError).aerr =
        absErr arrZero arrFour ∧
      (⟨none, relErr arrZero arrFour, absErr arrZero arrFour,
        (absErr arrZero arrFour).nonzero, 1 / 2⟩ : DifferenceError).locs =
        (⟨none, relErr arrZero arrFour, absErr arrZero arrFour,
          (absErr arrZero arrFour).nonzero, 1 / 2⟩ : DifferenceError).aerr.nonzero ∧
      (⟨none, relErr arrZero arrFour, absErr arrZero arrFour,
        (absErr arrZero arrFour).nonzero, 1 / 2⟩ : DifferenceError).locs.length =
        diffCount arrZero arrFour ∧
      (arrZero.data = arrFour.data →
        (⟨none, relErr arrZero arrFour, absErr arrZero arrFour,
          (absErr arrZero arrFour).nonzero, 1 / 2⟩ : DifferenceError).locs = [])) := by
  have hc : ¬(allclose (1 / 2 : ℚ) 0 arrZero arrFour = true ∧
      allclose (1 / 2 : ℚ) 0 arrFour arrZero = true) := by
    norm_num [allclose, isClose, arrZero, arrFour]
  have hE : assert_near_equality arrZero arrFour (1 / 2) 0 =
      .error ⟨none, relErr arrZero arrFour, absErr arrZero arrFour,
        (absErr arrZero arrFour).nonzero, 1 / 2⟩ := by
    unfold assert_near_equality
    rw [if_neg hc]
  have hwf1 : arrZero.wf := by unfold Arr.wf; rfl
  have hwf2 : arrFour.wf := by unfold Arr.wf; rfl
  have hsh : sameShape arrZero arrFour := by
    unfold sameShape
    exact ⟨rfl, rfl, rfl⟩
  exact ⟨⟨hwf1, hwf2, hsh, hE⟩,
    divergence_locs_are_nonzero_support arrZero arrFour (1 / 2) 0 _
      hwf1 hwf2 hsh hE⟩

/-- Variant of `dsBase` with an `x2` axis of a different length (same time
stamp). -/
def dsWideX2 : Dataset := { dsBase with x2 := ⟨1, 1, 2, [0, 0]⟩ }

/-- The `DifferenceError` that `assert_near_equality` raises for the
`v1` pair of `dsBase` and `dsOtherV1` at `rtol = 1/2`. -/
def wErrV1 : DifferenceError :=
  ⟨none, relErr (dsBase.get "v1") (dsOtherV1.get "v1"),
    absErr (dsBase.get "v1") (dsOtherV1.get "v1"),
    (absErr (dsBase.get "v1") (dsOtherV1.get "v1")).nonzero, 1 / 2⟩

/-- Invariance lemma: `fieldLoop` never reads the time stamps of its
datasets. -/
lemma fieldLoop_update_t (rtol : ℚ) (u v : Bool) (d1 d2 : Dataset)
    (t1 t2 : ℚ) (fs : List String) :
    fieldLoop rtol u v { d1 with t := t1 } { d2 with t := t2 } fs =
      fieldLoop rtol u v d1 d2 fs := by
  induction fs with
  | nil => rfl
  | cons f rest ih =>
    simp only [fieldLoop]
    rw [show ({ d1 with t := t1 } : Dataset).get f = d1.get f from rfl,
      show ({ d2 with t := t2 } : Dataset).get f = d2.get f from rfl, ih]

/-- Claim C2. When the time stamps of the two datasets differ and
`force = false`, `compare_two` aborts the whole file-pair comparison
reporting both literal time values, with zero field comparisons (no
exact and no tolerant comparator call) and no uncaught exception; if
`force = true` the comparison proceeds past the time-stamp check: its
result does not depend on the time stamps at all. -/
theorem time_mismatch_aborts_unless_forced (rtol : ℚ)
    (unforgiving verbose : Bool) (file1 file2 : String) (d1 d2 : Dataset)
    (h : d1.t ≠ d2.t) :
    (compare_two rtol unforgiving verbose false file1 file2
        (some d1) (some d2) =
      ⟨[.comparing file1 file2, .cannotCompareValues "t" d1.t d2.t], none,
        [], [], true, true, true, true⟩) ∧
    (compare_two rtol unforgiving verbose true file1 file2
        (some d1) (some d2) =
      compare_two rtol unforgiving verbose true file1 file2
        (some { d1 with t := 0 }) (some { d2 with t := 0 })) := by
  constructor
  · rw [compare_two_eq_handleExit]
    have hb : compareBody rtol unforgiving verbose false d1 d2 =
        ⟨[], [], [], .comparisonError "t" d1.t d2.t⟩ := by
      unfold compareBody
      rw [if_pos ⟨h, rfl⟩]
    rw [hb]
    rfl
  · rw [compare_two_eq_handleExit, compare_two_eq_handleExit]
    have hT1 : ¬(d1.t ≠ d2.t ∧ (true : Bool) = false) := by simp
    have hT2 : ¬(({ d1 with t := 0 } : Dataset).t ≠
        ({ d2 with t := 0 } : Dataset).t ∧ (true : Bool) = false) := by simp
    have hb : compareBody rtol unforgiving verbose true d1 d2 =
        compareBody rtol unforgiving verbose true
          { d1 with t := 0 } { d2 with t := 0 } := by
      unfold compareBody
      rw [if_neg hT1, if_neg hT2,
        fieldLoop_update_t rtol unforgiving verbose d1 d2 0 0 ["v1", "v2", "v3"],
        fieldLoop_update_t rtol unforgiving verbose d1 d2 0 0 ["e", "d", "gp"]]
    rw [hb]

/-- Witness for claim C2 at `dsBase` (t = 0) against `dsLaterT`
(t = 1). -/
theorem time_mismatch_aborts_unless_forced_witness :
    dsBase.t ≠ dsLaterT.t ∧
    ((compare_two 1 true true false "a" "b" (some dsBase) (some dsLaterT) =
      ⟨[.comparing "a" "b", .cannotCompareValues "t" dsBase.t dsLaterT.t],
        none, [], [], true, true, true, true⟩) ∧
    (compare_two 1 true true true "a" "b" (some dsBase) (some dsLaterT) =
      compare_two 1 true true true "a" "b"
        (some { dsBase with t := 0 }) (some { dsLaterT with t := 0 }))) :=
  ⟨by decide,
    time_mismatch_aborts_unless_forced 1 true true "a" "b" dsBase dsLaterT
      (by decide)⟩

/-- Counterexample to claim C1 as stated: the time-stamp check runs
before the axis-size check, so for a pair whose time stamps differ
(`force = false`) *and* whose `x2` axes have different lengths,
`compare_two` reports `StructuralMismatch("t", t1, t2)` and never
reports `StructuralMismatch("x2", 1, 2)`. -/
theorem axis_size_report_preempted_by_time_check :
    dsBase.x2.size = 1 ∧ dsLaterTWideX2.x2.size = 2 ∧
    (compare_two 1 true true false "a" "b"
        (some dsBase) (some dsLaterTWideX2)).lines =
      [.comparing "a" "b", .cannotCompareValues "t" 0 1] ∧
    Line.cannotCompareValues "x2" 1 2 ∉
      (compare_two 1 true true false "a" "b"
        (some dsBase) (some dsLaterTWideX2)).lines := by
  refine ⟨rfl, rfl, ?_, ?_⟩ <;>
  · norm_num [compare_two, handleExit, compareBody, fieldLoop, assert_equality,
      assert_near_equality, allclose, isClose, arrayEqual, Dataset.get,
      dsBase, dsLaterTWideX2, arrZero, Arr.size]
    try decide

/-- claim C1 (amended).  For every pair of datasets that passes the
time-stamp check (equal time stamps, or `force = true`) and whose
axis-size arrays differ in length on some coordinate axis,
`compare_two` reports `StructuralMismatch(axis, size1, size2)` for a
mismatched axis and no field-level comparator — exact or tolerant —
is ever invoked, regardless of the `unforgiving` flag.  (When the
time stamps also differ and `force = false`, the time mismatch is
reported instead, see the counterexample; the field comparators are
not invoked in that case either, since the time abort also precedes
them.) -/
theorem axis_size_mismatch_aborts_before_field_checks (rtol : ℚ)
    (unforgiving verbose force : Bool) (file1 file2 : String)
    (d1 d2 : Dataset) (ht : d1.t = d2.t ∨ force = true)
    (hsz : d1.x1.size ≠ d2.x1.size ∨ d1.x2.size ≠ d2.x2.size ∨
      d1.x3.size ≠ d2.x3.size) :
    ∃ ax n1 n2, (ax = "x1" ∨ ax = "x2" ∨ ax = "x3") ∧
      n1 = (d1.get ax).size ∧ n2 = (d2.get ax).size ∧ n1 ≠ n2 ∧
      compare_two rtol unforgiving verbose force file1 file2
          (some d1) (some d2) =
        ⟨[.comparing file1 file2, .cannotCompareValues ax (n1 : ℚ) (n2 : ℚ)],
          none, [], [], true, true, true, true⟩ := by
  have htime : ¬(d1.t ≠ d2.t ∧ force = false) := by
    rcases ht with h | h
    · exact fun hc => hc.1 h
    · rintro ⟨-, hf⟩
      rw [h] at hf
      exact Bool.noConfusion hf
  by_cases e1 : d1.x1.size = d2.x1.size
  · by_cases e2 : d1.x2.size = d2.x2.size
    · have e3 : d1.x3.size ≠ d2.x3.size := by tauto
      refine ⟨"x3", d1.x3.size, d2.x3.size, by tauto, rfl, rfl, e3, ?_⟩
      rw [compare_two_eq_handleExit]
      have hb : compareBody rtol unforgiving verbose force d1 d2 =
          ⟨[], [], [], .comparisonError "x3" d1.x3.size d2.x3.size⟩ := by
        unfold compareBody
        rw [if_neg htime, if_neg (not_not_intro e1),
          if_neg (not_not_intro e2), if_pos e3]
      rw [hb]
      rfl
    · refine ⟨"x2", d1.x2.size, d2.x2.size, by tauto, rfl, rfl, e2, ?_⟩
      rw [compare_two_eq_handleExit]
      have hb : compareBody rtol unforgiving verbose force d1 d2 =
          ⟨[], [], [], .comparisonError "x2" d1.x2.size d2.x2.size⟩ := by
        unfold compareBody
        rw [if_neg htime, if_neg (not_not_intro e1), if_pos e2]
      rw [hb]
      rfl
  · refine ⟨"x1", d1.x1.size, d2.x1.size, by tauto, rfl, rfl, e1, ?_⟩
    rw [compare_two_eq_handleExit]
    have hb : compareBody rtol unforgiving verbose force d1 d2 =
        ⟨[], [], [], .comparisonError "x1" d1.x1.size d2.x1.size⟩ := by
      unfold compareBody
      rw [if_neg htime, if_pos e1]
    rw [hb]
    rfl

/-- Witness for the amended claim C1 at `dsBase` against `dsWideX2`
(equal time stamps, `x2` sizes 1 vs 2). -/
theorem axis_size_mismatch_aborts_before_field_checks_witness :
    (dsBase.t = dsWideX2.t ∨ (false : Bool) = true) ∧
    (dsBase.x1.size ≠ dsWideX2.x1.size ∨ dsBase.x2.size ≠ dsWideX2.x2.size ∨
      dsBase.x3.size ≠ dsWideX2.x3.size) ∧
    (∃ ax n1 n2, (ax = "x1" ∨ ax = "x2" ∨ ax = "x3") ∧
      n1 = (dsBase.get ax).size ∧ n2 = (dsWideX2.get ax).size ∧ n1 ≠ n2 ∧
      compare_two 1 true true false "a" "b" (some dsBase) (some dsWideX2) =
        ⟨[.comparing "a" "b", .cannotCompareValues ax (n1 : ℚ) (n2 : ℚ)],
          none, [], [], true, true, true, true⟩) :=
  ⟨Or.inl rfl, Or.inr (Or.inl (by decide)),
    axis_size_mismatch_aborts_before_field_checks 1 true true false "a" "b"
      dsBase dsWideX2 (Or.inl rfl) (Or.inr (Or.inl (by decide)))⟩

/-- Claim C3, a code bug.  For a pair with equal time stamps and equal
axis sizes but an `x1` coordinate array differing in value,
`compare_two` does abort the pair regardless of `unforgiving` — but
not with the intended "cannot compare: axis differs" report:
`assert_equality` evaluates the undefined name `rtol`
(`output.py` line 97), so a `NameError` escapes `compare_two`
uncaught and nothing beyond the header is printed (the handler at
lines 173-175 is dead code). -/
theorem coordinate_divergence_hits_undefined_rtol :
    compare_two 1 true true false "a" "b" (some dsBase) (some dsOtherX1) =
      ⟨[.comparing "a" "b"], some (.nameError "rtol"), ["x1"], [],
        true, true, true, true⟩ := by
  norm_num [compare_two, handleExit, compareBody, fieldLoop, assert_equality,
    assert_near_equality, allclose, isClose, arrayEqual, Dataset.get,
    dsBase, dsOtherX1, arrZero, arrFour, Arr.size]

/-- Claim C4, a code bug.  For a pair passing all structural and
coordinate checks whose `v1` field exceeds the tolerance, with
`unforgiving = true`, `compare_two` aborts at that field with no
later field compared (`tolerantCalls = ["v1"]`) — but the promised
report naming the field is never printed: the handler evaluates
`DE.diff` (`output.py` line 178), an attribute `DifferenceError` does
not have, so an `AttributeError` escapes uncaught. -/
theorem unforgiving_divergence_hits_missing_diff_attribute :
    compare_two (1 / 2) true true false "a" "b"
        (some dsBase) (some dsOtherV1) =
      ⟨[.comparing "a" "b"], some (.attributeError "diff"),
        ["x1", "x2", "x3"], ["v1"], true, true, true, true⟩ := by
  norm_num [compare_two, handleExit, compareBody, fieldLoop, assert_equality,
    assert_near_equality, allclose, isClose, arrayEqual, Dataset.get,
    dsBase, dsOtherV1, arrZero, arrFour, Arr.size]
  decide

/-- Claim C5. With `unforgiving = false`, a field divergence in the
field loop of `compare_two` is recovered locally: the one-line
summary with the maximum relative error (`DE.rerr.max()`) is printed,
then — with `verbose = true` — one line per mismatch location whose
relative error strictly exceeds `rtol` (index triple plus the
`(relative, absolute)` error pair, no skips), and the loop continues
with the next field.  The tolerance stored in the error is the `rtol`
passed in,
and its location set is the nonzero support of the absolute error. -/
theorem forgiving_divergence_recovered_locally (rtol : ℚ)
    (d1 d2 : Dataset) (f : String) (rest : List String)
    (E : DifferenceError)
    (hE : assert_near_equality (d1.get f) (d2.get f) rtol 0 = .error E) :
    (fieldLoop rtol false true d1 d2 (f :: rest) =
      ⟨Line.doesNotMatch f ((E.rerr.data.max?).getD 0)
          :: ({ E with var := some f } : DifferenceError).showall [] [] []
          ++ (fieldLoop rtol false true d1 d2 rest).lines,
        f :: (fieldLoop rtol false true d1 d2 rest).calls,
        (fieldLoop rtol false true d1 d2 rest).err⟩) ∧
    (({ E with var := some f } : DifferenceError).showall [] [] [] =
      E.locs.filterMap fun p =>
        if E.rtol < E.rerr.get p.1 p.2.1 p.2.2 then
          some (.mismatchAt p.2.2 p.2.1 p.1 (E.rerr.get p.1 p.2.1 p.2.2)
            (E.aerr.get p.1 p.2.1 p.2.2))
        else none) ∧
    E.rtol = rtol ∧ E.locs = (absErr (d1.get f) (d2.get f)).nonzero := by
  have hEeq := assert_near_equality_error_eq hE
  refine ⟨?_, ?_, ?_, ?_⟩
  · simp [fieldLoop, hE]
  · unfold DifferenceError.showall
    have hlocs : ({ E with var := some f } : DifferenceError).locs =
        E.locs := rfl
    rw [hlocs]
    apply List.filterMap_congr
    intro p hp
    simp [List.not_mem_nil]
  · rw [hEeq]
  · rw [hEeq]

/-- Witness for claim C5 at `dsBase` against `dsOtherV1`, field `v1`,
`rtol = 1/2`, with one remaining field `v2`. -/
theorem forgiving_divergence_recovered_locally_witness :
    assert_near_equality (dsBase.get "v1") (dsOtherV1.get "v1") (1 / 2) 0 =
      .error wErrV1 ∧
    ((fieldLoop (1 / 2) false true dsBase dsOtherV1 ["v1", "v2"] =
      ⟨Line.doesNotMatch "v1" ((wErrV1.rerr.data.max?).getD 0)
          :: ({ wErrV1 with var := some "v1" } : DifferenceError).showall [] [] []
          ++ (fieldLoop (1 / 2) false true dsBase dsOtherV1 ["v2"]).lines,
        "v1" :: (fieldLoop (1 / 2) false true dsBase dsOtherV1 ["v2"]).calls,
        (fieldLoop (1 / 2) false true dsBase dsOtherV1 ["v2"]).err⟩) ∧
    (({ wErrV1 with var := some "v1" } : DifferenceError).showall [] [] [] =
      wErrV1.locs.filterMap fun p =>
        if wErrV1.rtol < wErrV1.rerr.get p.1 p.2.1 p.2.2 then
          some (.mismatchAt p.2.2 p.2.1 p.1 (wErrV1.rerr.get p.1 p.2.1 p.2.2)
            (wErrV1.aerr.get p.1 p.2.1 p.2.2))
        else none) ∧
    wErrV1.rtol = 1 / 2 ∧
      wErrV1.locs = (absErr (dsBase.get "v1") (dsOtherV1.get "v1")).nonzero) := by
  have hc : ¬(allclose (1 / 2 : ℚ) 0 (dsBase.get "v1") (dsOtherV1.get "v1") = true ∧
      allclose (1 / 2 : ℚ) 0 (dsOtherV1.get "v1") (dsBase.get "v1") = true) := by
    norm_num [allclose, isClose, Dataset.get, dsBase, dsOtherV1, arrZero, arrFour]
  have hE : assert_near_equality (dsBase.get "v1") (dsOtherV1.get "v1")
      (1 / 2) 0 = .error wErrV1 := by
    unfold assert_near_equality
    rw [if_neg hc]
    rfl
  exact ⟨hE,
    forgiving_divergence_recovered_locally (1 / 2) dsBase dsOtherV1 "v1"
      ["v2"] wErrV1 hE⟩

/-- Counterexample to claim C10 as stated: the two `ZeusFile` opens sit
before the `try`/`finally` (`output.py` lines 106-107 vs 181-183), so
when opening the second file fails, the first handle — already
opened — is never closed. -/
theorem second_open_failure_leaks_first_handle :
    (compare_two 1 true true false "a" "b" (some dsBase) none).f1Opened =
      true ∧
    (compare_two 1 true true false "a" "b" (some dsBase) none).f1Closed =
      false :=
  ⟨rfl, rfl⟩

/-- claim C10 (amended).  Once both files open successfully, both
handles are closed on every exit path of the comparison — normal
completion, structural-mismatch abort, divergence abort, and the
uncaught `NameError`/`AttributeError` paths — via the `finally`;
but when opening the second file fails, the already-opened first
handle is not closed. -/
theorem handles_closed_once_both_opens_succeed (rtol : ℚ)
    (unforgiving verbose force : Bool) (file1 file2 : String)
    (d1 d2 : Dataset) :
    ((compare_two rtol unforgiving verbose force file1 file2
        (some d1) (some d2)).f1Closed = true ∧
      (compare_two rtol unforgiving verbose force file1 file2
        (some d1) (some d2)).f2Closed = true) ∧
    ((compare_two rtol unforgiving verbose force file1 file2
        (some d1) none).f1Opened = true ∧
      (compare_two rtol unforgiving verbose force file1 file2
        (some d1) none).f1Closed = false) := by
  refine ⟨?_, rfl, rfl⟩
  rw [compare_two_eq_handleExit]
  exact handleExit_closes _ _
